import Mathlib

/-!
Verification of the record-fetch simulator and module demo.

The program under study is a pair of TypeScript demonstration files:

* an async demo defining `fetchUserData` (a simulated fetch that arms a
  1500 ms timer and then resolves with a hard-coded outcome),
  `showUserDetails` (sequential await with try/catch),
  `runParallelTasks` (three concurrent fetches joined by `Promise.all`)
  and `main` (runs the two orchestrators in order);
* a module demo exporting `PI`, `add`, and a default `Calculator` class
  with a `multiply` method.

The embedding below models the single-threaded event loop shallowly: a
promise that has been armed is a pair of its settle time and its settled
value (`TimedOutcome`), `Promise.all` settles at the earliest rejection
or, when none rejects, at the last fulfillment with the values in the
order the promises were passed.  Console output is modelled as a list of
`TraceLine`s, one constructor per distinct `console.log` call site.
TypeScript numbers in the module demo are modelled as exact rationals
(the demo performs only `+`, `*`, `/` on small literals).
-/

/-- Record produced by a fetch: the object literal `{ id, name }` that
`fetchUserData` resolves with. -/
structure Record where
  id : Int
  name : String
deriving DecidableEq, Repr

/-- Value carried by a rejected promise.  The source rejects with
`new Error("用户不存在")`; the spec calls this error kind `NotFoundError`.
Only the message is observable. -/
structure JsError where
  message : String
deriving DecidableEq, Repr

/-- Fixed error built by the failure branch of `fetchUserData`:
`new Error("用户不存在")`.  This is the spec's `NotFoundError`. -/
def notFoundError : JsError := { message := "用户不存在" }

/-- Local constant `const success = true` inside the timer callback of
`fetchUserData`. -/
def fetchSuccessFlag : Bool := true

/-- Branch taken when the timer of `fetchUserData id` fires:
`if (success) resolve({id, name: "Bruce Wayne"}) else reject(new Error(...))`.
The flag is a parameter so that the (currently dead) failure branch can be
stated; the source fixes it to `fetchSuccessFlag`. -/
def fetchOutcomeIf (success : Bool) (id : Int) : Except JsError Record :=
  if success then Except.ok { id := id, name := "Bruce Wayne" }
  else Except.error notFoundError

/-- Settled value of the promise returned by `fetchUserData id`, with the
source's hard-coded success flag. -/
def fetchUserDataOutcome (id : Int) : Except JsError Record :=
  fetchOutcomeIf fetchSuccessFlag id

/-- Simulated network delay: the `1500` passed to `setTimeout`. -/
def fetchDelay : Nat := 1500

/-- An armed promise: the event-loop time at which it settles and the
value it settles with. -/
structure TimedOutcome (α : Type) where
  time : Nat
  result : Except JsError α
deriving Repr

/-- Calling `fetchUserData id` at event-loop time `startTime`: it logs its
start notice synchronously (accounted for at the call sites below), arms a
`fetchDelay` timer, and the promise settles at `startTime + fetchDelay`
with the hard-coded outcome. -/
def fetchUserData (startTime : Nat) (id : Int) : TimedOutcome Record :=
  { time := startTime + fetchDelay, result := fetchUserDataOutcome id }

/-- One console line, one constructor per `console.log`/`console.error`
call site of the async demo:

* `seqStart` — `"--- 任务开始 ---"`
* `fetchStart id` — `"正在请求用户数据 (ID: ...)..."`, logged synchronously
  inside `fetchUserData`
* `fetchSuccess name` — `"获取成功:", user.name`
* `seqEnd` — `"--- 任务结束 ---"`
* `caughtError e` — `"捕获到错误:", error`
* `parStart` — `"\n--- 并发任务开始 ---"`
* `allDone names` — `"所有任务完成:", results.map(r => r.name)`
* `elapsed ms` — `"总耗时: ...ms ..."`
* `parError e` — `"其中一个任务失败了:", error` -/
inductive TraceLine where
  | seqStart : TraceLine
  | fetchStart : Int → TraceLine
  | fetchSuccess : String → TraceLine
  | seqEnd : TraceLine
  | caughtError : JsError → TraceLine
  | parStart : TraceLine
  | allDone : List String → TraceLine
  | elapsed : Nat → TraceLine
  | parError : JsError → TraceLine
deriving DecidableEq, Repr

/-- Embedding of `showUserDetails`, parameterised by the settled value of
the awaited `fetchUserData(1)` promise.  The whole body is wrapped in
try/catch, so the async function fulfills (first component `Except.ok ()`)
on both branches; the second component is the console trace.  The start
marker and the fetch-start notice are logged before the await suspends;
on rejection the catch clause logs the error. -/
def showUserDetails (fetchOutcome : Except JsError Record) :
    Except JsError Unit × List TraceLine :=
  match fetchOutcome with
  | Except.ok user =>
      (Except.ok (),
       [TraceLine.seqStart, TraceLine.fetchStart 1,
        TraceLine.fetchSuccess user.name, TraceLine.seqEnd])
  | Except.error e =>
      (Except.ok (),
       [TraceLine.seqStart, TraceLine.fetchStart 1, TraceLine.caughtError e])

/-- Settle time of the last promise in the group (0 for the empty group,
which `Promise.all` resolves immediately). -/
def maxFinish (ps : List (TimedOutcome α)) : Nat :=
  ps.foldl (fun m p => max m p.time) 0

/-- Rejections among a group of armed promises, in arming order, each with
its settle time. -/
def rejections (ps : List (TimedOutcome α)) : List (Nat × JsError) :=
  ps.filterMap fun p =>
    match p.result with
    | Except.error e => some (p.time, e)
    | Except.ok _ => none

/-- Fulfilled values of a group of armed promises, in arming order. -/
def fulfilledValues (ps : List (TimedOutcome α)) : List α :=
  ps.filterMap fun p => p.result.toOption

/-- Earliest rejection by settle time; a tie goes to the promise armed
first, as same-tick timers fire in arming order. -/
def earliest (r : Nat × JsError) (rs : List (Nat × JsError)) : Nat × JsError :=
  rs.foldl (fun best x => if x.1 < best.1 then x else best) r

/-- Semantics of `Promise.all` over a group of already-armed promises:
if any member rejects, the aggregate rejects at the first rejection with
that member's error; otherwise it fulfills when the last member does, with
the values listed in the order the promises were passed (not in
completion order). -/
def promiseAll (ps : List (TimedOutcome α)) : TimedOutcome (List α) :=
  match rejections ps with
  | [] => { time := maxFinish ps, result := Except.ok (fulfilledValues ps) }
  | r :: rs =>
      { time := (earliest r rs).1, result := Except.error (earliest r rs).2 }

/-- Embedding of `runParallelTasks`, run at event-loop time `startTime`
(the recorded `Date.now()`), parameterised by each fetch's timer duration
and settled value so that completion orders and injected failures (the
spec's test double) can be quantified over; the source instance is
`runParallelTasks` below.  The start marker is logged, then the three
fetches are initiated in program order — each logging its start notice —
before the single await on `Promise.all`.  On fulfillment the body logs
the name list and the elapsed time; on rejection the catch clause logs the
error.  The try/catch makes the async function fulfill either way. -/
def runParallelTasksWith (startTime : Nat) (delay : Int → Nat)
    (outcome : Int → Except JsError Record) :
    Except JsError Unit × List TraceLine :=
  let fetch := fun (i : Int) =>
    ({ time := startTime + delay i, result := outcome i } : TimedOutcome Record)
  let all := promiseAll [fetch 1, fetch 2, fetch 3]
  let pre := [TraceLine.parStart, TraceLine.fetchStart 1,
              TraceLine.fetchStart 2, TraceLine.fetchStart 3]
  match all.result with
  | Except.ok records =>
      (Except.ok (),
       pre ++ [TraceLine.allDone (records.map Record.name),
               TraceLine.elapsed (all.time - startTime)])
  | Except.error e => (Except.ok (), pre ++ [TraceLine.parError e])

/-- The `runParallelTasks` the source actually runs: every fetch uses the
`fetchDelay` timer and the hard-coded outcome of `fetchUserData`. -/
def runParallelTasks (startTime : Nat) : Except JsError Unit × List TraceLine :=
  runParallelTasksWith startTime (fun _ => fetchDelay) fetchUserDataOutcome

/-- Payload of the first aggregate-result line of a trace, if any. -/
def allDoneOf (tr : List TraceLine) : Option (List String) :=
  (tr.filterMap fun l =>
    match l with
    | TraceLine.allDone ns => some ns
    | _ => none).head?

/-- Payload of the first elapsed-time line of a trace, if any. -/
def elapsedOf (tr : List TraceLine) : Option Nat :=
  (tr.filterMap fun l =>
    match l with
    | TraceLine.elapsed ms => some ms
    | _ => none).head?

/-- Embedding of `main`: it awaits `showUserDetails` (whose single fetch
completes after one `fetchDelay`) and then awaits `runParallelTasks`,
so the full-run console trace is the concatenation of the two traces. -/
def mainTrace : List TraceLine :=
  (showUserDetails (fetchUserData 0 1).result).snd
    ++ (runParallelTasks fetchDelay).snd

/-- Named export `PI = 3.14159` of the module demo, as an exact rational. -/
def PI : ℚ := 314159 / 100000

/-- Named export `add` of the module demo: `return a + b`. -/
def add (a b : ℚ) : ℚ := a + b

/-- Default export `Calculator` of the module demo; the class has no
fields, only the `multiply` method. -/
structure Calculator where

/-- Method `multiply` of `Calculator`: `return a * b`. -/
def Calculator.multiply (_ : Calculator) (a b : ℚ) : ℚ := a * b

/-- A group of promises that all fulfilled has no rejection. -/
lemma rejections_map_ok {α : Type} (l : List (Nat × α)) :
    rejections (l.map fun p =>
      ({ time := p.1, result := Except.ok p.2 } : TimedOutcome α)) = [] := by
  induction l with
  | nil => rfl
  | cons x xs _ => simp [rejections]

/-- The fulfilled values of a group of fulfilled promises are the values in
arming order. -/
lemma fulfilledValues_map_ok {α : Type} (l : List (Nat × α)) :
    fulfilledValues (l.map fun p =>
      ({ time := p.1, result := Except.ok p.2 } : TimedOutcome α)) = l.map Prod.snd := by
  induction l with
  | nil => rfl
  | cons x xs ih => simpa [fulfilledValues, Except.toOption] using ih

/-- C1: for every integer identifier `id`, a successful fetch resolves to
a record whose `id` field equals the input identifier. -/
theorem fetchRecord_id_matches (id : Int) (r : Record)
    (h : fetchUserDataOutcome id = Except.ok r) : r.id = id := by
  simp [fetchUserDataOutcome, fetchOutcomeIf, fetchSuccessFlag] at h
  subst h
  rfl

/-- Witness for C1: at identifier 42 the fetched record's id is 42. -/
theorem fetchRecord_id_matches_witness :
    ({ id := 42, name := "Bruce Wayne" } : Record).id = 42 :=
  fetchRecord_id_matches 42 { id := 42, name := "Bruce Wayne" } rfl

/-- C2: fetchRecord deterministically succeeds and the record's name is
the fixed string "Bruce Wayne"; the failure branch is never taken. -/
theorem fetchRecord_hardcoded_success (id : Int) :
    fetchUserDataOutcome id = Except.ok { id := id, name := "Bruce Wayne" } ∧
    ∀ e : JsError, fetchUserDataOutcome id ≠ Except.error e := by
  refine ⟨rfl, ?_⟩
  intro e h
  simp [fetchUserDataOutcome, fetchOutcomeIf, fetchSuccessFlag] at h

/-- C3: Promise.all reports fulfilled values in the order the promises
were passed, whatever their completion times; hence runParallelTasks, for
every assignment of completion delays to the three fetches (all succeeding
as in the source), emits the names of records 1, 2, 3 in initiation
order. -/
theorem runParallelTasks_order_preserved :
    (∀ (l : List (Nat × Record)),
        (promiseAll (l.map fun p =>
            ({ time := p.1, result := Except.ok p.2 } : TimedOutcome Record))).result
          = Except.ok (l.map Prod.snd)) ∧
    (∀ (t : Nat) (delay : Int → Nat),
        allDoneOf (runParallelTasksWith t delay fetchUserDataOutcome).snd =
          some [Record.name { id := 1, name := "Bruce Wayne" },
                Record.name { id := 2, name := "Bruce Wayne" },
                Record.name { id := 3, name := "Bruce Wayne" }]) := by
  constructor
  · intro l
    simp [promiseAll, rejections_map_ok, fulfilledValues_map_ok]
  · intro t delay
    simp [runParallelTasksWith, promiseAll, rejections, fulfilledValues,
      fetchUserDataOutcome, fetchOutcomeIf, fetchSuccessFlag, allDoneOf,
      List.filterMap_cons, Except.toOption]

/-- C4: if exactly one of the three fetches issued by runParallelTasks is
made to fail, the aggregate operation fails with that fetch's error, no
aggregate name list appears in the trace, and the successes of the other
members are discarded. -/
theorem runParallelTasks_fail_fast (t : Nat) (delay : Int → Nat)
    (outcome : Int → Except JsError Record) (k : Int) (e : JsError)
    (hk : k ∈ ([1, 2, 3] : List Int))
    (he : outcome k = Except.error e)
    (hok : ∀ i ∈ ([1, 2, 3] : List Int), i ≠ k → ∃ r, outcome i = Except.ok r) :
    (runParallelTasksWith t delay outcome).snd =
      [TraceLine.parStart, TraceLine.fetchStart 1, TraceLine.fetchStart 2,
       TraceLine.fetchStart 3, TraceLine.parError e] ∧
    ∀ ns, TraceLine.allDone ns ∉ (runParallelTasksWith t delay outcome).snd := by
  simp only [List.mem_cons, List.mem_singleton] at hk
  rcases hk with hk | hk | hk | hk
  · subst hk
    obtain ⟨r2, h2⟩ := hok 2 (by simp) (by decide)
    obtain ⟨r3, h3⟩ := hok 3 (by simp) (by decide)
    refine ⟨?_, ?_⟩ <;>
      simp [runParallelTasksWith, promiseAll, rejections, earliest, he, h2, h3]
  · subst hk
    obtain ⟨r1, h1⟩ := hok 1 (by simp) (by decide)
    obtain ⟨r3, h3⟩ := hok 3 (by simp) (by decide)
    refine ⟨?_, ?_⟩ <;>
      simp [runParallelTasksWith, promiseAll, rejections, earliest, he, h1, h3]
  · subst hk
    obtain ⟨r1, h1⟩ := hok 1 (by simp) (by decide)
    obtain ⟨r2, h2⟩ := hok 2 (by simp) (by decide)
    refine ⟨?_, ?_⟩ <;>
      simp [runParallelTasksWith, promiseAll, rejections, earliest, he, h1, h2]
  · exact absurd hk (by simp)

/-- Witness for C4: with the second fetch forced to fail, the run's trace
ends in the error line and carries no aggregate name list. -/
theorem runParallelTasks_fail_fast_witness :
    (runParallelTasksWith 0 (fun _ => fetchDelay)
        (fun i => if i = 2 then Except.error notFoundError
                  else Except.ok { id := i, name := "Bruce Wayne" })).snd =
      [TraceLine.parStart, TraceLine.fetchStart 1, TraceLine.fetchStart 2,
       TraceLine.fetchStart 3, TraceLine.parError notFoundError] :=
  (runParallelTasks_fail_fast 0 (fun _ => fetchDelay)
    (fun i => if i = 2 then Except.error notFoundError
              else Except.ok { id := i, name := "Bruce Wayne" })
    2 notFoundError (by simp) (by simp)
    (fun i _ hne => ⟨{ id := i, name := "Bruce Wayne" }, by simp [hne]⟩)).1

/-- C5: showRecordDetails never propagates an error past its boundary:
whatever the fetch outcome, the async function fulfills; on success it
emits the record name and on failure it emits the error description,
recovered rather than re-raised. -/
theorem showUserDetails_never_raises (outcome : Except JsError Record)
    (u : Record) (e : JsError) :
    (showUserDetails outcome).fst = Except.ok () ∧
    TraceLine.fetchSuccess u.name ∈ (showUserDetails (Except.ok u)).snd ∧
    TraceLine.caughtError e ∈ (showUserDetails (Except.error e)).snd := by
  refine ⟨?_, by simp [showUserDetails], by simp [showUserDetails]⟩
  cases outcome <;> rfl

/-- C6: when the failure branch of the fetch is taken, the rejection is
the fixed NotFoundError value with message "用户不存在" — the same error
whatever the identifier, never another kind or a varying message. -/
theorem fetch_failure_fixed_error (id₁ id₂ : Int) :
    fetchOutcomeIf false id₁ = Except.error notFoundError ∧
    notFoundError.message = "用户不存在" ∧
    fetchOutcomeIf false id₁ = fetchOutcomeIf false id₂ :=
  ⟨rfl, rfl, rfl⟩

/-- C7: one full run emits, in order: the sequential start marker, the
fetch-start notice for id 1, the fetch result, the sequential end marker,
the parallel start marker, the three fetch-start notices for ids 1, 2, 3
in initiation order (all logged before the single suspension), the
aggregate name list, and the elapsed-time notice. -/
theorem main_trace_order :
    mainTrace =
      [TraceLine.seqStart, TraceLine.fetchStart 1,
       TraceLine.fetchSuccess "Bruce Wayne", TraceLine.seqEnd,
       TraceLine.parStart, TraceLine.fetchStart 1, TraceLine.fetchStart 2,
       TraceLine.fetchStart 3,
       TraceLine.allDone ["Bruce Wayne", "Bruce Wayne", "Bruce Wayne"],
       TraceLine.elapsed 1500] := by
  rfl

/-- C8: on full success runParallelTasks reports, for any start time, an
elapsed time equal to the single-fetch delay of 1500 time units — strictly
less than twice the single delay and not the 4500-unit sum of the three
delays — because the three fetches run concurrently. -/
theorem runParallelTasks_elapsed_single_delay (t : Nat) :
    elapsedOf (runParallelTasks t).snd = some fetchDelay ∧
    fetchDelay = 1500 ∧ fetchDelay < 2 * fetchDelay ∧
    3 * fetchDelay = 4500 ∧ fetchDelay ≠ 3 * fetchDelay := by
  refine ⟨?_, rfl, by decide, rfl, by decide⟩
  simp [runParallelTasks, runParallelTasksWith, promiseAll, rejections,
    fulfilledValues, fetchUserDataOutcome, fetchOutcomeIf, fetchSuccessFlag,
    elapsedOf, maxFinish]

/-- C9: fetchRecord is deterministic: two invocations armed at any two
event-loop times with the same identifier settle with identical
outcomes. -/
theorem fetchUserData_deterministic (id : Int) (t₁ t₂ : Nat) :
    (fetchUserData t₁ id).result = (fetchUserData t₂ id).result := rfl

/-- C10: the module demo's add returns the exact sum of its two arguments
(and is therefore commutative) and Calculator.multiply returns their exact
product; both are pure functions. -/
theorem add_multiply_exact (a b : ℚ) (c : Calculator) :
    add a b = a + b ∧ add a b = add b a ∧ c.multiply a b = a * b :=
  ⟨rfl, add_comm a b, rfl⟩
